import Mathlib

/-!
Shallow embedding of `src/app.py`, a Flask + SQLite personal budget tracker.

The persistent state is the single `records` table; the interesting logic is
`get_stats` (dynamic WHERE-clause composition and four aggregate SELECTs) and
the `index` route (write-side validation for `add_record`, degrade-on-error
parsing for the `filter` action).  SQLite REAL amounts (Python floats) are
modelled as exact rationals; TEXT dates are strings compared bytewise, as
SQLite's BINARY collation does.
-/

/-- The two permitted values of the `type` column,
per `CHECK(type IN ('income', 'expense'))` and the write-side validation. -/
inductive Kind where
  | income
  | expense
deriving DecidableEq, Repr

/-- One row of the `records` table.  `created_at` is informational only and is
never read back by any query in `app.py`, so it is omitted from the model. -/
structure Record where
  id : Nat
  amount : Rat
  kind : Kind
  category : String
  date : String
  note : String
deriving DecidableEq, Repr

/-- The `records` table together with the AUTOINCREMENT counter. -/
structure Store where
  rows : List Record
  nextId : Nat
deriving DecidableEq, Repr

/-- A freshly initialised database (`init_db`): no rows, ids start at 1. -/
def Store.empty : Store := ⟨[], 1⟩

/-- Strict lexicographic comparison of character lists: SQLite's BINARY
collation on the TEXT `date` column (dates here are ASCII). -/
def lexLt : List Char → List Char → Bool
  | _, [] => false
  | [], _ :: _ => true
  | a :: as, b :: bs => decide (a < b) || (decide (a = b) && lexLt as bs)

/-- SQLite TEXT strict comparison on strings. -/
def strLt (a b : String) : Bool := lexLt a.data b.data

/-- SQLite TEXT non-strict comparison, as used by `BETWEEN`. -/
def strLe (a b : String) : Bool := !(strLt b a)

/-- Python `str.strip()`: drop leading and trailing whitespace. -/
def pyTrim (s : String) : String :=
  ⟨(((s.data.dropWhile Char.isWhitespace).reverse).dropWhile Char.isWhitespace).reverse⟩

/-- Numeric value of a digit list, most significant digit first. -/
def digitsVal (cs : List Char) : Nat :=
  List.foldl (fun a c => 10 * a + (c.toNat - 48)) 0 cs

/-- Split a character list at its first dot, if any. -/
def splitDot : List Char → List Char × Option (List Char)
  | [] => ([], none)
  | c :: cs =>
    if c = '.' then ([], some cs)
    else
      let p := splitDot cs
      (c :: p.1, p.2)

/-- Modelled from Python's built-in `float()` as `app.py` applies it to form
fields: an optional sign followed by decimal digits with an optional dot,
surrounding whitespace ignored.  Exponent and infinity forms of the full
`float()` grammar are omitted; on the inputs modelled here the result is
`none` exactly when `float()` raises `ValueError`. -/
def pyFloat (s : String) : Option Rat :=
  let sg : Rat × List Char :=
    match (pyTrim s).data with
    | '-' :: r => (-1, r)
    | '+' :: r => (1, r)
    | r => (1, r)
  match splitDot sg.2 with
  | (ip, none) =>
    if !ip.isEmpty && ip.all Char.isDigit then some (sg.1 * digitsVal ip) else none
  | (ip, some fp) =>
    if (!ip.isEmpty || !fp.isEmpty) && ip.all Char.isDigit && fp.all Char.isDigit then
      some (sg.1 * ((digitsVal ip : Rat) + (digitsVal fp : Rat) / (10 : Rat) ^ fp.length))
    else none

/-- The dynamically composed WHERE clause of `get_stats` (app.py lines 71-86):
`date BETWEEN ? AND ?`, then `category = ?` when the category argument is
truthy and non-blank after stripping, then `amount >= ?` / `amount <= ?` when
the bounds are present. -/
def matchesWhere (start_date end_date : String) (category : Option String)
    (min_amount max_amount : Option Rat) (r : Record) : Bool :=
  (strLe start_date r.date && strLe r.date end_date)
  && (match category with
      | none => true
      | some c => if pyTrim c = "" then true else decide (r.category = pyTrim c))
  && (match min_amount with
      | none => true
      | some m => decide (m ≤ r.amount))
  && (match max_amount with
      | none => true
      | some m => decide (r.amount ≤ m))

/-- Value of `COALESCE(SUM(amount), 0)` over a list of rows. -/
def sumAmounts (rs : List Record) : Rat := (rs.map Record.amount).sum

/-- Rows selected by `WHERE type = 'income' AND <where_clause>`. -/
def incomeRows (sd ed : String) (c : Option String) (mn mx : Option Rat)
    (rows : List Record) : List Record :=
  rows.filter (fun r => decide (r.kind = Kind.income) && matchesWhere sd ed c mn mx r)

/-- Rows selected by `WHERE type = 'expense' AND <where_clause>`. -/
def expenseRows (sd ed : String) (c : Option String) (mn mx : Option Rat)
    (rows : List Record) : List Record :=
  rows.filter (fun r => decide (r.kind = Kind.expense) && matchesWhere sd ed c mn mx r)

/-- Rows selected by the bare `<where_clause>` (the detail listing). -/
def matchRows (sd ed : String) (c : Option String) (mn mx : Option Rat)
    (rows : List Record) : List Record :=
  rows.filter (matchesWhere sd ed c mn mx)

/-- Order `ORDER BY total DESC` on the grouped breakdown rows: a pair comes first
when its summed amount is at least the other's. -/
def bdOrd (p q : String × Rat) : Prop := q.2 ≤ p.2

instance : DecidableRel bdOrd := fun p q => inferInstanceAs (Decidable (q.2 ≤ p.2))

instance : IsTotal (String × Rat) bdOrd := ⟨fun p q => le_total q.2 p.2⟩

instance : IsTrans (String × Rat) bdOrd := ⟨fun _ _ _ h1 h2 => le_trans h2 h1⟩

/-- Order `ORDER BY date DESC, id DESC` on the detail listing: a row comes first
when its date is later, or the dates coincide and its id is at least the
other's. -/
def recOrd (a b : Record) : Prop :=
  strLt b.date a.date = true ∨ (a.date = b.date ∧ b.id ≤ a.id)

instance : DecidableRel recOrd := fun a b =>
  inferInstanceAs (Decidable (strLt b.date a.date = true ∨ (a.date = b.date ∧ b.id ≤ a.id)))

/-- Grouping `GROUP BY category` with `SUM(amount)` per group (before the final sort).
Group enumeration order is a fixed but inessential rule (the spec leaves the
tie order of the later amount sort unspecified). -/
def groupPairs (xs : List Record) : List (String × Rat) :=
  ((xs.map Record.category).dedup).map
    (fun c => (c, sumAmounts (xs.filter (fun r => decide (r.category = c)))))

/-- The category-breakdown SELECT (app.py lines 111-123): group the matching
expense rows by category, sum amounts per group, sort by total descending. -/
def breakdownOf (sd ed : String) (c : Option String) (mn mx : Option Rat)
    (rows : List Record) : List (String × Rat) :=
  List.insertionSort bdOrd (groupPairs (expenseRows sd ed c mn mx rows))

/-- The detail SELECT (app.py lines 126-135): matching rows ordered by
`date DESC, id DESC`. -/
def recordsOf (sd ed : String) (c : Option String) (mn mx : Option Rat)
    (rows : List Record) : List Record :=
  List.insertionSort recOrd (matchRows sd ed c mn mx rows)

/-- The SQL statements `app.py` issues against the `records` table. -/
inductive Stmt where
  | selectSumIncome (sd ed : String) (c : Option String) (mn mx : Option Rat)
  | selectSumExpense (sd ed : String) (c : Option String) (mn mx : Option Rat)
  | selectBreakdown (sd ed : String) (c : Option String) (mn mx : Option Rat)
  | selectRecords (sd ed : String) (c : Option String) (mn mx : Option Rat)
  | insertRecord (amount : Rat) (k : Kind) (category date note : String)
deriving DecidableEq, Repr

/-- Whether a statement only reads the table: true for every SELECT, false
for the INSERT. -/
def Stmt.isSelect : Stmt → Bool
  | .insertRecord .. => false
  | _ => true

/-- The result a statement hands back through the cursor. -/
inductive Result where
  | num (q : Rat)
  | table (rows : List (String × Rat))
  | recs (rs : List Record)
  | done
deriving DecidableEq, Repr

def Result.asNum : Result → Rat
  | .num q => q
  | _ => 0

def Result.asTable : Result → List (String × Rat)
  | .table t => t
  | _ => []

def Result.asRecs : Result → List Record
  | .recs rs => rs
  | _ => []

/-- Execute one SQL statement: SELECTs read the store and leave it unchanged;
the INSERT appends a row with the next AUTOINCREMENT id. -/
def execStmt : Stmt → Store → Result × Store
  | .selectSumIncome sd ed c mn mx, db =>
    (.num (sumAmounts (incomeRows sd ed c mn mx db.rows)), db)
  | .selectSumExpense sd ed c mn mx, db =>
    (.num (sumAmounts (expenseRows sd ed c mn mx db.rows)), db)
  | .selectBreakdown sd ed c mn mx, db =>
    (.table (breakdownOf sd ed c mn mx db.rows), db)
  | .selectRecords sd ed c mn mx, db =>
    (.recs (recordsOf sd ed c mn mx db.rows), db)
  | .insertRecord a k cat d n, db =>
    (.done, ⟨db.rows ++ [⟨db.nextId, a, k, cat, d, n⟩], db.nextId + 1⟩)

/-- Run a list of statements on one connection, threading the store. -/
def runStmts : List Stmt → Store → List Result × Store
  | [], db => ([], db)
  | s :: rest, db =>
    let p := execStmt s db
    let q := runStmts rest p.2
    (p.1 :: q.1, q.2)

/-- The four SELECTs `get_stats` issues, in source order. -/
def get_stats_stmts (sd ed : String) (c : Option String) (mn mx : Option Rat) :
    List Stmt :=
  [Stmt.selectSumIncome sd ed c mn mx, Stmt.selectSumExpense sd ed c mn mx,
   Stmt.selectBreakdown sd ed c mn mx, Stmt.selectRecords sd ed c mn mx]

/-- The dictionary `get_stats` returns. -/
structure Stats where
  total_income : Rat
  total_expense : Rat
  category_labels : List String
  category_amounts : List Rat
  records : List Record
deriving DecidableEq, Repr

/-- Function `get_stats` (app.py lines 60-145): open a connection, run the four
SELECTs under one WHERE clause, close the connection, return the results. -/
def get_stats (db : Store) (start_date end_date : String) (category : Option String)
    (min_amount max_amount : Option Rat) : Stats × Store :=
  let p := runStmts (get_stats_stmts start_date end_date category min_amount max_amount) db
  ({ total_income := (p.1.getD 0 Result.done).asNum,
     total_expense := (p.1.getD 1 Result.done).asNum,
     category_labels := ((p.1.getD 2 Result.done).asTable).map Prod.fst,
     category_amounts := ((p.1.getD 2 Result.done).asTable).map Prod.snd,
     records := (p.1.getD 3 Result.done).asRecs }, p.2)

/-- The flash messages the `index` route can emit. -/
inductive Flash where
  | addSuccess
  | errAmount
  | errKind
  | errCategory
  | warnMin
  | warnMax
  | warnBudget
deriving DecidableEq, Repr

def DEFAULT_BUDGET : Rat := 30000

/-- Python `request.form.get("date") or date.today().isoformat()`: an absent
field or the empty string falls back to today, anything else is kept. -/
def dateResolved (d : Option String) (today : String) : String :=
  match d with
  | none => today
  | some s => if s = "" then today else s

/-- The membership test `record_type in ("income", "expense")`; an absent
field (`None`) also fails it. -/
def kindOfField : Option String → Option Kind
  | some "income" => some Kind.income
  | some "expense" => some Kind.expense
  | _ => none

/-- The `action == "add_record"` branch of `index` (app.py lines 166-200):
parse the amount (reject on failure), validate the kind and the category,
then INSERT; `today` injects `date.today().isoformat()`. -/
def add_record (db : Store) (amount_field : String) (type_field : Option String)
    (category_field : String) (date_field : Option String) (note_field : String)
    (today : String) : Store × Flash :=
  match pyFloat (pyTrim amount_field) with
  | none => (db, Flash.errAmount)
  | some amount =>
    let category := pyTrim category_field
    let date_str := dateResolved date_field today
    let note := pyTrim note_field
    match kindOfField type_field with
    | none => (db, Flash.errKind)
    | some k =>
      if category = "" then (db, Flash.errCategory)
      else ((execStmt (Stmt.insertRecord amount k category date_str note) db).2,
            Flash.addSuccess)

/-- The raw form fields of the `filter` action; `start_date`/`end_date` come
from `form.get` without a default (absent is `None`), the rest default to "". -/
structure FilterForm where
  start_date : Option String
  end_date : Option String
  category_filter : String
  min_amount : String
  max_amount : String
  budget : String
deriving DecidableEq, Repr

/-- The filter settings after the `filter` branch ran. -/
structure FilterState where
  start_date : String
  end_date : String
  category_filter : String
  min_amount : Option Rat
  max_amount : Option Rat
  budget : Rat
  flashes : List Flash
deriving DecidableEq, Repr

/-- Python `form.get(key) or default`: `None` and "" both fall back. -/
def orDefault (v : Option String) (d : String) : String :=
  match v with
  | none => d
  | some s => if s = "" then d else s

/-- The `action == "filter"` branch of `index` (app.py lines 203-231): each
malformed numeric field is dropped with a warning flash; a malformed budget
falls back to `DEFAULT_BUDGET`. -/
def apply_filter (form : FilterForm) (default_start default_end : String) :
    FilterState :=
  let min_str := pyTrim form.min_amount
  let max_str := pyTrim form.max_amount
  let budget_str := pyTrim form.budget
  let pmin : Option Rat × List Flash :=
    if min_str = "" then (none, [])
    else
      match pyFloat min_str with
      | some v => (some v, [])
      | none => (none, [Flash.warnMin])
  let pmax : Option Rat × List Flash :=
    if max_str = "" then (none, [])
    else
      match pyFloat max_str with
      | some v => (some v, [])
      | none => (none, [Flash.warnMax])
  let pbud : Rat × List Flash :=
    if budget_str = "" then (DEFAULT_BUDGET, [])
    else
      match pyFloat budget_str with
      | some v => (v, [])
      | none => (DEFAULT_BUDGET, [Flash.warnBudget])
  { start_date := orDefault form.start_date default_start,
    end_date := orDefault form.end_date default_end,
    category_filter := pyTrim form.category_filter,
    min_amount := pmin.1,
    max_amount := pmax.1,
    budget := pbud.1,
    flashes := pmin.2 ++ pmax.2 ++ pbud.2 }

/-- The values `index` hands to `render_template` (app.py lines 245-263). -/
structure ViewModel where
  start_date : String
  end_date : String
  category_filter : String
  min_amount : Option Rat
  max_amount : Option Rat
  budget : Rat
  total_income : Rat
  total_expense : Rat
  balance : Rat
  budget_diff : Rat
  category_labels : List String
  category_amounts : List Rat
  records : List Record
  flashes : List Flash
deriving DecidableEq, Repr

/-- The budget evaluator, `budget_diff = budget - stats["total_expense"]`
(app.py line 243). -/
def budget_eval (budget total_expense : Rat) : Rat := budget - total_expense

/-- A full `POST action="filter"` request: run the filter branch, compute the
stats, assemble the template context.  `default_start`/`default_end` inject
the current-month range computed from the system clock. -/
def index_filter (db : Store) (form : FilterForm)
    (default_start default_end : String) : ViewModel × Store :=
  let fs := apply_filter form default_start default_end
  let p := get_stats db fs.start_date fs.end_date (some fs.category_filter)
    fs.min_amount fs.max_amount
  ({ start_date := fs.start_date,
     end_date := fs.end_date,
     category_filter := fs.category_filter,
     min_amount := fs.min_amount,
     max_amount := fs.max_amount,
     budget := fs.budget,
     total_income := p.1.total_income,
     total_expense := p.1.total_expense,
     balance := p.1.total_income - p.1.total_expense,
     budget_diff := budget_eval fs.budget p.1.total_expense,
     category_labels := p.1.category_labels,
     category_amounts := p.1.category_amounts,
     records := p.1.records,
     flashes := fs.flashes }, p.2)

/-- Agreement of everything `get_stats` computed for two rendered pages:
same totals, same breakdown, same result set. -/
def sameResults (a b : ViewModel) : Prop :=
  a.total_income = b.total_income ∧ a.total_expense = b.total_expense ∧
  a.category_labels = b.category_labels ∧ a.category_amounts = b.category_amounts ∧
  a.records = b.records

theorem lexLt_nil_right (x : List Char) : lexLt x [] = false := by
  cases x <;> rfl

theorem lexLt_trans {x y z : List Char} (h1 : lexLt x y = true)
    (h2 : lexLt y z = true) : lexLt x z = true := by
  induction x generalizing y z with
  | nil =>
    cases z with
    | nil =>
      cases y with
      | nil => simp [lexLt] at h1
      | cons b bs => rw [lexLt_nil_right] at h2; exact absurd h2 (by simp)
    | cons c cs => rfl
  | cons a as ih =>
    cases y with
    | nil => rw [lexLt_nil_right] at h1; exact absurd h1 (by simp)
    | cons b bs =>
      cases z with
      | nil => rw [lexLt_nil_right] at h2; exact absurd h2 (by simp)
      | cons c cs =>
        simp only [lexLt, Bool.or_eq_true, Bool.and_eq_true, decide_eq_true_eq] at h1 h2 ⊢
        rcases h1 with h1 | ⟨hab, h1⟩
        · rcases h2 with h2 | ⟨hbc, h2⟩
          · exact Or.inl (lt_trans h1 h2)
          · exact Or.inl (hbc ▸ h1)
        · rcases h2 with h2 | ⟨hbc, h2⟩
          · exact Or.inl (hab ▸ h2)
          · exact Or.inr ⟨hab.trans hbc, ih h1 h2⟩

theorem lexLt_trichotomy : ∀ (x y : List Char), x = y ∨ lexLt x y = true ∨ lexLt y x = true
  | [], [] => Or.inl rfl
  | [], _ :: _ => Or.inr (Or.inl rfl)
  | _ :: _, [] => Or.inr (Or.inr rfl)
  | a :: as, b :: bs => by
    rcases lt_trichotomy a b with h | h | h
    · exact Or.inr (Or.inl (by simp [lexLt, h]))
    · subst h
      rcases lexLt_trichotomy as bs with h | h | h
      · exact Or.inl (by rw [h])
      · exact Or.inr (Or.inl (by simp [lexLt, h]))
      · exact Or.inr (Or.inr (by simp [lexLt, h]))
    · exact Or.inr (Or.inr (by simp [lexLt, h]))

instance : IsTrans Record recOrd := ⟨by
  intro a b c h1 h2
  rcases h1 with h1 | ⟨he1, hi1⟩
  · rcases h2 with h2 | ⟨he2, hi2⟩
    · exact Or.inl (lexLt_trans h2 h1)
    · exact Or.inl (he2 ▸ h1)
  · rcases h2 with h2 | ⟨he2, hi2⟩
    · exact Or.inl (he1.symm ▸ h2)
    · exact Or.inr ⟨he1.trans he2, le_trans hi2 hi1⟩⟩

instance : IsTotal Record recOrd := ⟨by
  intro a b
  by_cases h : a.date = b.date
  · rcases Nat.le_total b.id a.id with h2 | h2
    · exact Or.inl (Or.inr ⟨h, h2⟩)
    · exact Or.inr (Or.inr ⟨h.symm, h2⟩)
  · rcases lexLt_trichotomy a.date.data b.date.data with he | hlt | hlt
    · exact absurd (String.ext he) h
    · exact Or.inr (Or.inl hlt)
    · exact Or.inl (Or.inl hlt)⟩

theorem get_stats_eq (db : Store) (sd ed : String) (c : Option String)
    (mn mx : Option Rat) :
    get_stats db sd ed c mn mx =
      ({ total_income := sumAmounts (incomeRows sd ed c mn mx db.rows),
         total_expense := sumAmounts (expenseRows sd ed c mn mx db.rows),
         category_labels := (breakdownOf sd ed c mn mx db.rows).map Prod.fst,
         category_amounts := (breakdownOf sd ed c mn mx db.rows).map Prod.snd,
         records := recordsOf sd ed c mn mx db.rows }, db) := rfl

theorem sumAmounts_perm {l1 l2 : List Record} (h : l1.Perm l2) :
    sumAmounts l1 = sumAmounts l2 :=
  (h.map Record.amount).sum_eq

theorem sumAmounts_filter_split (p : Record → Bool) (xs : List Record) :
    sumAmounts (xs.filter p) + sumAmounts (xs.filter (fun r => !(p r)))
      = sumAmounts xs := by
  induction xs with
  | nil => simp [sumAmounts]
  | cons r rs ih =>
    rcases Bool.eq_false_or_eq_true (p r) with h | h <;>
      simp only [sumAmounts] at ih ⊢ <;>
      simp [List.filter_cons, h] <;>
      linarith [ih]

theorem sum_over_cats : ∀ (cs : List String) (xs : List Record), cs.Nodup →
    (∀ r ∈ xs, r.category ∈ cs) →
    (cs.map (fun c => sumAmounts (xs.filter (fun r => decide (r.category = c))))).sum
      = sumAmounts xs := by
  intro cs
  induction cs with
  | nil =>
    intro xs _ hcov
    cases xs with
    | nil => simp [sumAmounts]
    | cons r rs => exact absurd (hcov r (List.mem_cons_self r rs)) (List.not_mem_nil _)
  | cons c cs ih =>
    intro xs hnd hcov
    have hnotin : c ∉ cs := (List.nodup_cons.mp hnd).1
    have hnd2 : cs.Nodup := (List.nodup_cons.mp hnd).2
    have hmap : ∀ c2 ∈ cs,
        xs.filter (fun r => decide (r.category = c2))
          = (xs.filter (fun r => !(decide (r.category = c)))).filter
              (fun r => decide (r.category = c2)) := by
      intro c2 hc2
      have hcc : c2 ≠ c := fun hq => hnotin (hq ▸ hc2)
      rw [List.filter_filter]
      apply List.filter_congr
      intro r _
      by_cases h : r.category = c2
      · simp [h, hcc]
      · simp [h]
    have hmapeq :
        cs.map (fun c2 => sumAmounts (xs.filter (fun r => decide (r.category = c2))))
          = cs.map (fun c2 => sumAmounts
              ((xs.filter (fun r => !(decide (r.category = c)))).filter
                (fun r => decide (r.category = c2)))) :=
      List.map_congr_left (fun c2 hc2 => congrArg sumAmounts (hmap c2 hc2))
    have hcov2 : ∀ r ∈ xs.filter (fun r => !(decide (r.category = c))),
        r.category ∈ cs := by
      intro r hr
      have h1 := List.of_mem_filter hr
      have h2 := List.mem_of_mem_filter hr
      rcases List.mem_cons.mp (hcov r h2) with he | hin
      · have h1b : r.category ≠ c := by simpa using h1
        exact absurd he h1b
      · exact hin
    rw [List.map_cons, List.sum_cons, hmapeq,
      ih (xs.filter (fun r => !(decide (r.category = c)))) hnd2 hcov2]
    exact sumAmounts_filter_split (fun r => decide (r.category = c)) xs

/-- The spec's ordering example: an income dated 2024-01-01 (id 1), then two
expenses dated 2024-01-03 (ids 2 and 3), inserted in that order. -/
def exampleStoreC3 : Store :=
  (add_record ((add_record ((add_record Store.empty "100" (some "income") "salary"
    (some "2024-01-01") "" "2024-05-01").1) "50" (some "expense") "food"
    (some "2024-01-03") "" "2024-05-01").1) "20" (some "expense") "food"
    (some "2024-01-03") "" "2024-05-01").1

/-- The spec's category-sort example: an expense of 10 in "food" and one of
50 in "rent", both in the same window. -/
def exampleStoreC6 : Store :=
  (add_record ((add_record Store.empty "10" (some "expense") "food"
    (some "2024-01-02") "" "2024-05-01").1) "50" (some "expense") "rent"
    (some "2024-01-05") "" "2024-05-01").1

/-- C1: for every store and every filter, the amounts of the category
breakdown returned by get_stats sum exactly to the total_expense returned by
the same call (exact rational arithmetic; all aggregates share one WHERE
predicate). -/
theorem breakdown_sum_matches_total_expense (db : Store) (sd ed : String)
    (cat : Option String) (mn mx : Option Rat) :
    ((get_stats db sd ed cat mn mx).1.category_amounts).sum
      = (get_stats db sd ed cat mn mx).1.total_expense := by
  rw [get_stats_eq]
  show ((breakdownOf sd ed cat mn mx db.rows).map Prod.snd).sum
    = sumAmounts (expenseRows sd ed cat mn mx db.rows)
  have hperm := List.perm_insertionSort bdOrd
    (groupPairs (expenseRows sd ed cat mn mx db.rows))
  rw [breakdownOf.eq_def, (hperm.map Prod.snd).sum_eq, groupPairs.eq_def, List.map_map]
  have hcomp : (Prod.snd ∘ fun c => (c, sumAmounts
        ((expenseRows sd ed cat mn mx db.rows).filter (fun r => decide (r.category = c)))))
      = fun c => sumAmounts
        ((expenseRows sd ed cat mn mx db.rows).filter (fun r => decide (r.category = c))) := rfl
  rw [hcomp]
  apply sum_over_cats
  · exact List.nodup_dedup _
  · intro r hr
    exact List.mem_dedup.mpr (List.mem_map_of_mem Record.category hr)

/-- C2: for every store and every filter, the records list of get_stats
restricted to expense rows sums to total_expense and restricted to income
rows sums to total_income; and on the empty store every output is zero or
empty. -/
theorem records_agree_with_totals (db : Store) (sd ed : String) (cat : Option String)
    (mn mx : Option Rat) :
    sumAmounts (((get_stats db sd ed cat mn mx).1.records).filter
        (fun r => decide (r.kind = Kind.expense)))
      = (get_stats db sd ed cat mn mx).1.total_expense
  ∧ sumAmounts (((get_stats db sd ed cat mn mx).1.records).filter
        (fun r => decide (r.kind = Kind.income)))
      = (get_stats db sd ed cat mn mx).1.total_income
  ∧ get_stats Store.empty sd ed cat mn mx = (⟨0, 0, [], [], []⟩, Store.empty) := by
  have key : ∀ p : Record → Bool,
      sumAmounts ((recordsOf sd ed cat mn mx db.rows).filter p)
        = sumAmounts (db.rows.filter (fun r => p r && matchesWhere sd ed cat mn mx r)) := by
    intro p
    have hperm := (List.perm_insertionSort recOrd (matchRows sd ed cat mn mx db.rows)).filter p
    rw [recordsOf.eq_def, sumAmounts_perm hperm, matchRows.eq_def, List.filter_filter]
  refine ⟨?_, ?_, rfl⟩
  · rw [get_stats_eq]
    exact key (fun r => decide (r.kind = Kind.expense))
  · rw [get_stats_eq]
    exact key (fun r => decide (r.kind = Kind.income))

/-- C3: for every store and every filter, the records list of get_stats is
exactly the rows satisfying the WHERE predicate, sorted descending by date
with ties broken by descending id; on the spec's example store the ids come
back as [3, 2, 1]. -/
theorem records_filtered_and_ordered (db : Store) (sd ed : String) (cat : Option String)
    (mn mx : Option Rat) :
    ((get_stats db sd ed cat mn mx).1.records).Perm
        (db.rows.filter (matchesWhere sd ed cat mn mx))
  ∧ List.Sorted recOrd ((get_stats db sd ed cat mn mx).1.records)
  ∧ ((get_stats exampleStoreC3 "2024-01-01" "2024-01-31" none none none).1.records).map
        Record.id = [3, 2, 1] := by
  refine ⟨?_, ?_, by with_unfolding_all decide⟩
  · rw [get_stats_eq]
    exact List.perm_insertionSort recOrd (matchRows sd ed cat mn mx db.rows)
  · rw [get_stats_eq]
    exact List.sorted_insertionSort recOrd (matchRows sd ed cat mn mx db.rows)

/-- C6: for every store and every filter, the category breakdown of get_stats
is the matching expense rows grouped by category with per-group sums
(a permutation of the group list), sorted descending by summed amount; on the
spec's example it is [("rent", 50), ("food", 10)]. -/
theorem breakdown_grouped_and_sorted (db : Store) (sd ed : String) (cat : Option String)
    (mn mx : Option Rat) :
    (get_stats db sd ed cat mn mx).1.category_labels
        = (breakdownOf sd ed cat mn mx db.rows).map Prod.fst
  ∧ (get_stats db sd ed cat mn mx).1.category_amounts
        = (breakdownOf sd ed cat mn mx db.rows).map Prod.snd
  ∧ (breakdownOf sd ed cat mn mx db.rows).Perm
        (groupPairs (expenseRows sd ed cat mn mx db.rows))
  ∧ List.Sorted bdOrd (breakdownOf sd ed cat mn mx db.rows)
  ∧ (get_stats exampleStoreC6 "2024-01-01" "2024-01-31" none none none).1.category_labels
        = ["rent", "food"]
  ∧ (get_stats exampleStoreC6 "2024-01-01" "2024-01-31" none none none).1.category_amounts
        = [50, 10] := by
  refine ⟨rfl, rfl, List.perm_insertionSort bdOrd _, List.sorted_insertionSort bdOrd _,
    by with_unfolding_all decide, by with_unfolding_all decide⟩

/-- C7: the budget evaluator is pure subtraction, budget_diff equals
budget - total_expense with no floor or ceiling, balance equals
total_income - total_expense, and evaluate(total_expense=500, budget=300)
is -200. -/
theorem budget_diff_formula (db : Store) (form : FilterForm) (ds de : String) :
    (index_filter db form ds de).1.budget_diff
        = (index_filter db form ds de).1.budget
          - (index_filter db form ds de).1.total_expense
  ∧ (index_filter db form ds de).1.balance
        = (index_filter db form ds de).1.total_income
          - (index_filter db form ds de).1.total_expense
  ∧ budget_eval 300 500 = -200 := by
  refine ⟨rfl, rfl, by with_unfolding_all decide⟩

/-- C9: get_stats is read-only: it returns the store unchanged, and every
statement it issues is a SELECT. -/
theorem get_stats_is_readonly (db : Store) (sd ed : String) (cat : Option String)
    (mn mx : Option Rat) :
    (get_stats db sd ed cat mn mx).2 = db
  ∧ (get_stats_stmts sd ed cat mn mx).all Stmt.isSelect = true :=
  ⟨rfl, rfl⟩

theorem add_record_success (db : Store) (amount_field : String)
    (type_field : Option String) (category_field : String) (date_field : Option String)
    (note_field : String) (today : String) (q : Rat) (k : Kind)
    (hq : pyFloat (pyTrim amount_field) = some q)
    (hk : kindOfField type_field = some k)
    (hc : pyTrim category_field ≠ "") :
    add_record db amount_field type_field category_field date_field note_field today
      = (⟨db.rows ++ [⟨db.nextId, q, k, pyTrim category_field,
            dateResolved date_field today, pyTrim note_field⟩], db.nextId + 1⟩,
         Flash.addSuccess) := by
  unfold add_record
  rw [hq, hk]
  simp [execStmt, hc]

/-- C5: every insert whose kind is invalid, whose amount does not parse, or
whose category is blank after trimming is rejected: the store is unchanged
(same row count) and the flash is an error, not the success message. -/
theorem invalid_insert_rejected (db : Store) (amount_field : String)
    (type_field : Option String) (category_field : String) (date_field : Option String)
    (note_field : String) (today : String)
    (h : pyFloat (pyTrim amount_field) = none ∨ kindOfField type_field = none
        ∨ pyTrim category_field = "") :
    (add_record db amount_field type_field category_field date_field note_field today).1
        = db
  ∧ ((add_record db amount_field type_field category_field date_field note_field
        today).1).rows.length = db.rows.length
  ∧ (add_record db amount_field type_field category_field date_field note_field today).2
        ≠ Flash.addSuccess := by
  unfold add_record
  cases hp : pyFloat (pyTrim amount_field) with
  | none => exact ⟨rfl, rfl, by simp⟩
  | some q =>
    cases hk : kindOfField type_field with
    | none => exact ⟨rfl, rfl, by simp⟩
    | some k =>
      have hc : pyTrim category_field = "" := by
        rcases h with h | h | h
        · rw [hp] at h; exact absurd h (by simp)
        · rw [hk] at h; exact absurd h (by simp)
        · exact h
      simp [hc]

theorem invalid_insert_rejected_witness :
    kindOfField (some "transfer") = none
  ∧ ((add_record Store.empty "10" (some "transfer") "food" none "" "2024-05-01").1
        = Store.empty
      ∧ ((add_record Store.empty "10" (some "transfer") "food" none "" "2024-05-01").1).rows.length
          = Store.empty.rows.length
      ∧ (add_record Store.empty "10" (some "transfer") "food" none "" "2024-05-01").2
          ≠ Flash.addSuccess) :=
  ⟨by decide,
   invalid_insert_rejected Store.empty "10" (some "transfer") "food" none "" "2024-05-01"
     (Or.inr (Or.inl (by decide)))⟩

/-- C8: amount positivity is not enforced: any insert whose amount string
parses (to any rational, zero and negatives included) with a valid kind and a
non-blank category succeeds and stores exactly that amount; the write path
checks nothing else. -/
theorem permissive_amount_insert (db : Store) (amount_field : String)
    (type_field : Option String) (category_field : String) (date_field : Option String)
    (note_field : String) (today : String) (q : Rat) (k : Kind)
    (hq : pyFloat (pyTrim amount_field) = some q)
    (hk : kindOfField type_field = some k)
    (hc : pyTrim category_field ≠ "") :
    add_record db amount_field type_field category_field date_field note_field today
      = (⟨db.rows ++ [⟨db.nextId, q, k, pyTrim category_field,
            dateResolved date_field today, pyTrim note_field⟩], db.nextId + 1⟩,
         Flash.addSuccess) :=
  add_record_success db amount_field type_field category_field date_field note_field
    today q k hq hk hc

theorem permissive_amount_insert_witness :
    (pyFloat (pyTrim "-12.5") = some (-(25 : Rat) / 2)
      ∧ pyFloat (pyTrim "0") = some 0
      ∧ kindOfField (some "expense") = some Kind.expense
      ∧ pyTrim "food" ≠ "")
  ∧ add_record Store.empty "-12.5" (some "expense") "food" (some "2024-01-02") ""
        "2024-05-01"
      = (⟨[⟨1, -(25 : Rat) / 2, Kind.expense, "food", "2024-01-02", ""⟩], 2⟩,
         Flash.addSuccess)
  ∧ add_record Store.empty "0" (some "expense") "food" (some "2024-01-02") "" "2024-05-01"
      = (⟨[⟨1, 0, Kind.expense, "food", "2024-01-02", ""⟩], 2⟩, Flash.addSuccess) :=
  ⟨⟨by with_unfolding_all decide, by with_unfolding_all decide, by decide, by decide⟩,
   permissive_amount_insert Store.empty "-12.5" (some "expense") "food"
     (some "2024-01-02") "" "2024-05-01" (-(25 : Rat) / 2) Kind.expense
     (by with_unfolding_all decide) (by decide) (by decide),
   permissive_amount_insert Store.empty "0" (some "expense") "food"
     (some "2024-01-02") "" "2024-05-01" 0 Kind.expense
     (by with_unfolding_all decide) (by decide) (by decide)⟩

/-- C10: the date field is never validated: with valid amount, kind and
category, the insert succeeds for every date field value; a non-empty string
(ISO or not) is stored verbatim and an absent or empty field is replaced by
today's date. -/
theorem date_not_validated (db : Store) (amount_field : String)
    (type_field : Option String) (category_field : String) (date_field : Option String)
    (note_field : String) (today : String) (q : Rat) (k : Kind)
    (hq : pyFloat (pyTrim amount_field) = some q)
    (hk : kindOfField type_field = some k)
    (hc : pyTrim category_field ≠ "") :
    (add_record db amount_field type_field category_field date_field note_field today).2
        = Flash.addSuccess
  ∧ ((add_record db amount_field type_field category_field date_field note_field
        today).1).rows
      = db.rows ++ [⟨db.nextId, q, k, pyTrim category_field,
          dateResolved date_field today, pyTrim note_field⟩]
  ∧ (∀ s : String, s ≠ "" → dateResolved (some s) today = s)
  ∧ dateResolved none today = today
  ∧ dateResolved (some "") today = today := by
  rw [add_record_success db amount_field type_field category_field date_field note_field
    today q k hq hk hc]
  refine ⟨rfl, rfl, ?_, rfl, rfl⟩
  intro s hs
  simp [dateResolved, hs]

theorem date_not_validated_witness :
    (pyFloat (pyTrim "20") = some 20
      ∧ kindOfField (some "income") = some Kind.income
      ∧ pyTrim "salary" ≠ "")
  ∧ (add_record Store.empty "20" (some "income") "salary" (some "13/45/9999") ""
        "2024-05-01").2 = Flash.addSuccess
  ∧ ((add_record Store.empty "20" (some "income") "salary" (some "13/45/9999") ""
        "2024-05-01").1).rows
      = [⟨1, 20, Kind.income, "salary", "13/45/9999", ""⟩]
  ∧ dateResolved (some "13/45/9999") "2024-05-01" = "13/45/9999"
  ∧ dateResolved none "2024-05-01" = "2024-05-01" :=
  ⟨⟨by with_unfolding_all decide, by decide, by decide⟩,
   (date_not_validated Store.empty "20" (some "income") "salary" (some "13/45/9999") ""
     "2024-05-01" 20 Kind.income (by with_unfolding_all decide) (by decide) (by decide)).1,
   (date_not_validated Store.empty "20" (some "income") "salary" (some "13/45/9999") ""
     "2024-05-01" 20 Kind.income (by with_unfolding_all decide) (by decide) (by decide)).2.1,
   (date_not_validated Store.empty "20" (some "income") "salary" (some "13/45/9999") ""
     "2024-05-01" 20 Kind.income (by with_unfolding_all decide) (by decide)
     (by decide)).2.2.1 "13/45/9999" (by decide),
   (date_not_validated Store.empty "20" (some "income") "salary" (some "13/45/9999") ""
     "2024-05-01" 20 Kind.income (by with_unfolding_all decide) (by decide)
     (by decide)).2.2.2.1⟩

/-- C4: a malformed (non-empty, non-numeric) min_amount, max_amount or budget
field does not fail the request: the bound is dropped, the result set and all
aggregates equal those of the same request with that field absent, only an
advisory warning flash is added, and a malformed budget falls back to
DEFAULT_BUDGET exactly as an absent one does. -/
theorem malformed_bounds_degrade (db : Store) (form : FilterForm) (ds de : String) :
    (pyTrim form.min_amount ≠ "" → pyFloat (pyTrim form.min_amount) = none →
      sameResults (index_filter db form ds de).1
          (index_filter db { form with min_amount := "" } ds de).1
        ∧ Flash.warnMin ∈ (index_filter db form ds de).1.flashes)
  ∧ (pyTrim form.max_amount ≠ "" → pyFloat (pyTrim form.max_amount) = none →
      sameResults (index_filter db form ds de).1
          (index_filter db { form with max_amount := "" } ds de).1
        ∧ Flash.warnMax ∈ (index_filter db form ds de).1.flashes)
  ∧ (pyTrim form.budget ≠ "" → pyFloat (pyTrim form.budget) = none →
      sameResults (index_filter db form ds de).1
          (index_filter db { form with budget := "" } ds de).1
        ∧ (index_filter db form ds de).1.budget = DEFAULT_BUDGET
        ∧ (index_filter db { form with budget := "" } ds de).1.budget = DEFAULT_BUDGET
        ∧ Flash.warnBudget ∈ (index_filter db form ds de).1.flashes) := by
  have hnil : pyTrim "" = "" := rfl
  refine ⟨fun h1 h2 => ⟨?_, ?_⟩, fun h1 h2 => ⟨?_, ?_⟩, fun h1 h2 => ⟨?_, ?_, ?_, ?_⟩⟩ <;>
    simp [index_filter, apply_filter, sameResults, h1, h2, hnil]

/-- A filter form whose min_amount field is the non-numeric string "abc". -/
def exampleFormC4 : FilterForm := ⟨none, none, "", "abc", "", ""⟩

theorem malformed_bounds_degrade_witness :
    (pyTrim exampleFormC4.min_amount ≠ ""
      ∧ pyFloat (pyTrim exampleFormC4.min_amount) = none)
  ∧ sameResults (index_filter Store.empty exampleFormC4 "2024-01-01" "2024-01-31").1
        (index_filter Store.empty { exampleFormC4 with min_amount := "" }
          "2024-01-01" "2024-01-31").1
  ∧ Flash.warnMin
      ∈ (index_filter Store.empty exampleFormC4 "2024-01-01" "2024-01-31").1.flashes :=
  ⟨⟨by decide, by decide⟩,
   ((malformed_bounds_degrade Store.empty exampleFormC4 "2024-01-01" "2024-01-31").1
     (by decide) (by decide)).1,
   ((malformed_bounds_degrade Store.empty exampleFormC4 "2024-01-01" "2024-01-31").1
     (by decide) (by decide)).2⟩
